import Mathlib

/-!
Verification development for the China workday API (`src/main.py`).

The repository's core is embedded shallowly:

* Calendar dates are `Ymd` values; Python's `date.toordinal()` is `toRD`
  (proleptic-Gregorian day count with 0001-01-01 ↦ 1) and
  `date.weekday()` (Monday = 0) is `weekdayOf`.
* The primary calendar source (the external `chinese_calendar` library:
  `is_workday` / `get_holiday_detail`) is an external collaborator and is
  modelled as a parameter `PrimarySource : Nat → Option HolidayFact` over
  ordinals; `none` models the `NotImplementedError` the library raises for
  a year outside its rule tables.
* `find_next_rest_day` (main.py lines 115-130) is `findNextRestDay`, and
  `get_date_status` (lines 133-176) is `getDateStatus`; the real current
  date (`date.today()`) is an explicit `today` ordinal parameter.
* The secondary cache store (`load_cache` / `save_cache`, lines 39-52) is
  modelled over an abstract `Storage` state; Python's `json.loads` /
  `json.dumps` are stdlib collaborators passed as a codec parameter.
* The date-text formats of `check_date` (lines 254-281) are embedded with
  CPython `strptime` semantics for the directives `%Y`, `%m`, `%d`
  (alternation order of the stdlib regexes, full-consumption check,
  `datetime` range validation); the `%-m` / `%-d` variants are invalid
  strptime directives and always raise `ValueError`, hence never match.
-/

namespace ChinaWorkday

/-! ## Calendar dates (Python `datetime.date`) -/

/-- A plain year/month/day value (`CalendarDate` of the data model). -/
structure Ymd where
  y : Nat
  m : Nat
  d : Nat
deriving DecidableEq, Repr

/-- Gregorian leap-year rule, as in Python's `calendar.isleap`. -/
def isLeap (y : Nat) : Bool :=
  y % 4 == 0 && (y % 100 != 0 || y % 400 == 0)

/-- Days in year `y` strictly before month `m` (1-based). -/
def daysBeforeMonth (y m : Nat) : Nat :=
  (if m ≥ 2 then 31 else 0) + (if m ≥ 3 then (if isLeap y then 29 else 28) else 0) +
  (if m ≥ 4 then 31 else 0) + (if m ≥ 5 then 30 else 0) +
  (if m ≥ 6 then 31 else 0) + (if m ≥ 7 then 30 else 0) +
  (if m ≥ 8 then 31 else 0) + (if m ≥ 9 then 31 else 0) +
  (if m ≥ 10 then 30 else 0) + (if m ≥ 11 then 31 else 0) +
  (if m ≥ 12 then 30 else 0)

/-- Python `date.toordinal()`: proleptic-Gregorian ordinal, 0001-01-01 ↦ 1. -/
def toRD (t : Ymd) : Nat :=
  365 * (t.y - 1) + (t.y - 1) / 4 + (t.y - 1) / 400 - (t.y - 1) / 100 +
    daysBeforeMonth t.y t.m + t.d

/-- Python `date.weekday()`: Monday = 0 … Sunday = 6, from the ordinal. -/
def weekdayOf (o : Nat) : Nat :=
  (o + 6) % 7

/-- `WEEKDAY_NAMES` (main.py line 32). -/
def WEEKDAY_NAMES : List String :=
  ["周一", "周二", "周三", "周四", "周五", "周六", "周日"]

/-- `WEEKDAY_NAMES[d.weekday()]` for the date of ordinal `o`. -/
def weekdayName (o : Nat) : String :=
  WEEKDAY_NAMES.getD (weekdayOf o) ""

/-- Zero-pad to two digits, as Python `isoformat` does for month/day. -/
def pad2 (n : Nat) : String :=
  if n < 10 then "0" ++ toString n else toString n

/-- Zero-pad to four digits, as Python `isoformat` does for the year. -/
def pad4 (n : Nat) : String :=
  if n < 10 then "000" ++ toString n
  else if n < 100 then "00" ++ toString n
  else if n < 1000 then "0" ++ toString n
  else toString n

/-- Python `date.isoformat()`: the canonical `YYYY-MM-DD` string. -/
def isoformat (t : Ymd) : String :=
  pad4 t.y ++ "-" ++ pad2 t.m ++ "-" ++ pad2 t.d

/-! ## Primary calendar source (external `chinese_calendar` library) -/

/-- `HolidayFact` of the data model: what the primary source answers for one
date. `is_working_day` is `chinese_calendar.is_workday`,
`is_designated_holiday` and `holiday_name` are the two components of
`chinese_calendar.get_holiday_detail`. -/
structure HolidayFact where
  is_working_day : Bool
  is_designated_holiday : Bool
  holiday_name : Option String
deriving DecidableEq, Repr

/-- Modelled from the spec: the Primary Calendar Source is the external
`chinese_calendar` library (not part of this repository), queried per date
ordinal. `none` models the `NotImplementedError` it raises when its rule
tables do not cover the date's year. -/
def PrimarySource : Type :=
  Nat → Option HolidayFact

/-- Python string truthiness of an optional string: `None` and `""` are
falsy. -/
def truthyStr : Option String → Bool
  | some s => s ≠ ""
  | none => false

/-- Python `x or dflt` on an optional string `x`. -/
def pyStrOr (o : Option String) (dflt : String) : String :=
  match o with
  | some s => if s = "" then dflt else s
  | none => dflt

/-! ## Next-rest-day scanner (`find_next_rest_day`, main.py lines 115-130) -/

/-- The record built by `find_next_rest_day` (`NextRestDay` of the data
model). `dateOrd` is the found date as an ordinal (the source renders it
with `isoformat`); `days_from_now` is `(d - date.today()).days`. -/
structure NextRest where
  dateOrd : Nat
  weekday_name : String
  detail : String
  days_from_now : Int
deriving DecidableEq, Repr

/-- `holiday_name if on_holiday and holiday_name else "周末"`
(main.py line 125). -/
def scanDetail (f : HolidayFact) : String :=
  match f.holiday_name with
  | some s => if f.is_designated_holiday ∧ s ≠ "" then s else "周末"
  | none => "周末"

/-- The loop body of `find_next_rest_day`: `i` is the current loop index and
the second argument the number of indices still to examine. A `none` from
the source models the `NotImplementedError` caught at line 128: the scan
breaks and the function returns `None`. -/
def frdScan (src : PrimarySource) (today fromOrd : Nat) : Nat → Nat → Option NextRest
  | _, 0 => none
  | i, n + 1 =>
    match src (fromOrd + i) with
    | none => none
    | some f =>
      if f.is_working_day then frdScan src today fromOrd (i + 1) n
      else some ⟨fromOrd + i, weekdayName (fromOrd + i), scanDetail f,
                 (fromOrd + i : Int) - (today : Int)⟩

/-- `find_next_rest_day(from_date, max_days=30)` (main.py lines 115-130),
over ordinals; `today` is the ordinal of the real current date read by
`date.today()` at line 126. -/
def findNextRestDay (src : PrimarySource) (today fromOrd maxDays : Nat) : Option NextRest :=
  frdScan src today fromOrd 1 maxDays

/-! ## Date status resolver (`get_date_status`, main.py lines 133-176) -/

/-- `SecondaryIndex` of the data model: per year (as its decimal string, the
JSON object key) a mapping from ISO date string to holiday display name. -/
def SecondaryIndex : Type :=
  List (String × List (String × String))

/-- First-match association-list lookup: Python `dict` access by key (dict
keys are unique, so first match is the match). -/
def dictLookup {α : Type} : List (String × α) → String → Option α
  | [], _ => none
  | p :: rest, k => if p.1 = k then some p.2 else dictLookup rest k

/-- The fixed disagreement message (main.py lines 162 and 164). -/
def disagreeMsg : String :=
  "数据源存在差异，请以官方通知为准"

/-- The `detail` cascade of `get_date_status` (main.py lines 141-150), given
the primary-source fact and the Python weekday of the target. -/
def detailOf (fact : HolidayFact) (wd : Nat) : String :=
  if fact.is_designated_holiday then pyStrOr fact.holiday_name "法定节假日"
  else if fact.is_working_day ∧ 5 ≤ wd then "调休补班"
  else if fact.is_working_day = false ∧ wd < 5 then "休息日"
  else if fact.is_working_day then "正常工作日"
  else "周末"

/-- The secondary-source comparison of `get_date_status` (main.py lines
152-164): `cache.get(str(year), {})`, then the two disagreement branches
guarded by the truthiness of the year's sub-mapping. -/
def warningOf (cache : SecondaryIndex) (target : Ymd) (fact : HolidayFact) : Option String :=
  let year_cache := (dictLookup cache (toString target.y)).getD []
  let date_str := isoformat target
  if year_cache = [] then none
  else
    let in_nager := year_cache.any (fun p => p.1 == date_str)
    if fact.is_designated_holiday ∧ in_nager = false then some disagreeMsg
    else if fact.is_designated_holiday = false ∧ in_nager then some disagreeMsg
    else none

/-- `StatusVerdict` of the data model: the dict built at main.py lines
166-176. `holiday_name` is `some` exactly when the key is added at line
175. -/
structure Verdict where
  date : String
  weekday_name : String
  is_workday : Bool
  detail : String
  next_rest_day : Option NextRest
  warning : Option String
  holiday_name : Option String
deriving DecidableEq, Repr

/-- `get_date_status(target_date)` (main.py lines 133-176). The secondary
index is the snapshot `load_cache()` returns at line 154; `today` is the
ordinal of the real current date (read inside `find_next_rest_day`).
`none` models the `NotImplementedError` propagating out of `is_workday` /
`get_holiday_detail` for an unsupported year. -/
def getDateStatus (src : PrimarySource) (cache : SecondaryIndex) (today : Nat)
    (target : Ymd) : Option Verdict :=
  match src (toRD target) with
  | none => none
  | some fact =>
    some { date := isoformat target
           weekday_name := weekdayName (toRD target)
           is_workday := fact.is_working_day
           detail := detailOf fact (weekdayOf (toRD target))
           next_rest_day := findNextRestDay src today (toRD target) 30
           warning := warningOf cache target fact
           holiday_name :=
             if fact.is_designated_holiday ∧ truthyStr fact.holiday_name
             then fact.holiday_name else none }

/-! ## Secondary cache store (`load_cache` / `save_cache`, main.py lines 39-52)

The persisted snapshot is one JSON file. The filesystem is modelled as an
abstract `Storage` state, and Python's `json.loads` / `json.dumps` (stdlib,
external to the repository) as a codec passed in as parameters: `loads`
returns `none` on invalid JSON (`json.JSONDecodeError`). -/

/-- A JSON value as Python's `json` module produces it. Numbers are kept as
their lexemes; only the string/object structure matters to the cache. -/
inductive Json where
  | null : Json
  | bool : Bool → Json
  | num : String → Json
  | str : String → Json
  | arr : List Json → Json
  | obj : List (String × Json) → Json

/-- The state of the persisted cache file: absent, present but unreadable
(`read_text` raises), or present with some textual content. -/
inductive Storage where
  | absent : Storage
  | unreadable : Storage
  | content : String → Storage

/-- `load_cache()` (main.py lines 39-46): missing file, a read error or a
parse error all degrade to the empty index `{}`; otherwise the parsed
content is returned as-is. -/
def loadCache (loads : String → Option Json) : Storage → Json
  | .absent => .obj []
  | .unreadable => .obj []
  | .content s =>
    match loads s with
    | some j => j
    | none => .obj []

/-- `save_cache(data)` (main.py lines 49-52): overwrites the persisted
snapshot with `json.dumps(data)`. -/
def saveCache (dumps : Json → String) (data : Json) : Storage :=
  .content (dumps data)

/-! ## Cache refresh job (`update_auxiliary_cache`, main.py lines 99-108) -/

/-- Python `dict` assignment `d[k] = v` on an association list: an existing
key keeps its position and gets the new value, a new key is appended. -/
def dictSet {α : Type} (l : List (String × α)) (k : String) (v : α) :
    List (String × α) :=
  if l.any (fun p => p.1 == k) then
    l.map (fun p => if p.1 = k then (k, v) else p)
  else l ++ [(k, v)]

/-- A fetched year list `{date: localName}` as the JSON object stored in the
cache. -/
def yearJson (h : List (String × String)) : Json :=
  .obj (h.map (fun p => (p.1, Json.str p.2)))

/-- One iteration of the loop at main.py lines 104-107:
`holidays = await fetch_nager_holidays(year); if holidays: cache[str(year)] = holidays`.
`none` models the `TypeError` Python raises when item assignment is
attempted on a loaded cache value that is not a JSON object. -/
def updateStep (fetch : Nat → List (String × String)) (year : Nat) (c : Json) :
    Option Json :=
  if (fetch year).isEmpty then some c
  else
    match c with
    | .obj l => some (.obj (dictSet l (toString year) (yearJson (fetch year))))
    | _ => none

/-- `update_auxiliary_cache()` (main.py lines 99-108): load, merge the
fetch results for the current and the next year (an empty fetch result —
the fetcher swallows all failures into `{}` — changes nothing), save.
`fetch` is the external `fetch_nager_holidays`; `cur` is
`date.today().year`. -/
def updateAuxiliaryCache (loads : String → Option Json) (dumps : Json → String)
    (fetch : Nat → List (String × String)) (cur : Nat) (st : Storage) :
    Option Storage := do
  let c1 ← updateStep fetch cur (loadCache loads st)
  let c2 ← updateStep fetch (cur + 1) c1
  pure (saveCache dumps c2)

/-- The pure index-level effect of one refresh run on an index-shaped
cache. -/
def updatedIndex (fetch : Nat → List (String × String)) (cur : Nat)
    (idx : List (String × Json)) : List (String × Json) :=
  let idx1 := if (fetch cur).isEmpty then idx
              else dictSet idx (toString cur) (yearJson (fetch cur))
  if (fetch (cur + 1)).isEmpty then idx1
  else dictSet idx1 (toString (cur + 1)) (yearJson (fetch (cur + 1)))

/-! ## Date-text parsing (`check_date`, main.py lines 254-281)

CPython `strptime` compiles each format into a regex: `%Y` is `\d\d\d\d`,
`%m` is `1[0-2]|0[1-9]|[1-9]`, `%d` is
`3[0-1]|[1-2]\d|0[1-9]|[1-9]| [1-9]` (the last alternative accepts a
space-padded day), other characters are literals. Matching is anchored at the start, alternatives
are tried in the order written (with backtracking), and after the first
regex match the whole input must have been consumed, else `ValueError`.
The matched fields are then validated by the `datetime` constructor
(year ≥ 1, day within the month). -/

/-- Numeric value of a decimal digit character. -/
def digitVal (c : Char) : Nat :=
  c.toNat - 48

/-- Decimal digit characters of `n`, most significant first. -/
def digitChars (n : Nat) : List Char :=
  if _h : n < 10 then [Nat.digitChar n]
  else digitChars (n / 10) ++ [Nat.digitChar (n % 10)]
decreasing_by exact Nat.div_lt_self (by omega) (by omega)

/-! ## Concrete instances used by witnesses -/

/-- A primary source whose only non-working day is ordinal 6. -/
def srcW : PrimarySource :=
  fun o => some ⟨decide (o ≠ 6), false, none⟩

/-- A primary source unsupported at ordinal 5, working before it,
non-working from ordinal 7 on. -/
def srcGap : PrimarySource :=
  fun o => if o = 5 then none else some ⟨decide (o < 7), false, none⟩

/-- A primary source marking every day a non-working non-holiday. -/
def srcAllRest : PrimarySource :=
  fun _ => some ⟨false, false, none⟩

/-- A primary source marking every day a plain working day. -/
def srcAllWork : PrimarySource :=
  fun _ => some ⟨true, false, none⟩

/-- A primary source agreeing with `srcAllWork` everywhere except at
ordinal 0. -/
def srcDiffAtZero : PrimarySource :=
  fun o => some ⟨decide (o ≠ 0), false, none⟩

/-- A primary source marking every day the named holiday 元旦. -/
def srcHoliday : PrimarySource :=
  fun _ => some ⟨false, true, some "元旦"⟩

/-- A secondary index listing 2026-01-01 for year 2026. -/
def cacheNager : SecondaryIndex :=
  [("2026", [("2026-01-01", "New Year's Day")])]

/-- A secondary index with data only for year 1999. -/
def cacheOld : SecondaryIndex :=
  [("1999", [("1999-01-01", "元旦")])]

/-- A one-string codec decoder: only `"e"` is valid JSON text, decoding to
the empty object. -/
def loadsW : String → Option Json :=
  fun s => if s = "e" then some (.obj []) else none

/-- A one-string codec encoder matching `loadsW`. -/
def dumpsW : Json → String :=
  fun _ => "e"

/-- A prior persisted index with an entry for year 2020 only. -/
def idxW : List (String × Json) :=
  [("2020", Json.str "x")]

/-- A fetcher succeeding for 2025 only and failing (empty) elsewhere. -/
def fetchW : Nat → List (String × String) :=
  fun y => if y = 2025 then [("2025-01-01", "元旦")] else []

/-- The index produced by one refresh run with `fetchW` in year 2025. -/
def updW : List (String × Json) :=
  updatedIndex fetchW 2025 idxW

/-- A decoder for the refresh witness: `"A"` holds the prior index, `"B"`
the refreshed one. -/
def loadsR : String → Option Json :=
  fun s => if s = "A" then some (.obj idxW)
           else if s = "B" then some (.obj updW) else none

/-- An encoder for the refresh witness, writing `"B"`. -/
def dumpsR : Json → String :=
  fun _ => "B"

/-! ## Scanner lemmas -/

/-- Characterisation of a successful scan: the returned record is built at
the first index whose day the source marks non-working, and every earlier
scanned day is supported and working. -/
theorem frdScan_some_spec (src : PrimarySource) (today fromOrd : Nat) :
    ∀ (rem i : Nat) (r : NextRest), frdScan src today fromOrd i rem = some r →
      ∃ j, i ≤ j ∧ j < i + rem ∧
        (∃ f, src (fromOrd + j) = some f ∧ f.is_working_day = false ∧
          r = ⟨fromOrd + j, weekdayName (fromOrd + j), scanDetail f,
               (fromOrd + j : Int) - (today : Int)⟩) ∧
        (∀ j', i ≤ j' → j' < j →
          ∃ f, src (fromOrd + j') = some f ∧ f.is_working_day = true) := by
  intro rem
  induction rem with
  | zero => intro i r h; simp [frdScan] at h
  | succ n ih =>
    intro i r h
    rw [frdScan] at h
    cases hsrc : src (fromOrd + i) with
    | none => rw [hsrc] at h; cases h
    | some f =>
      rw [hsrc] at h
      dsimp only at h
      by_cases hw : f.is_working_day = true
      · rw [if_pos hw] at h
        obtain ⟨j, hj1, hj2, hfound, hbefore⟩ := ih (i + 1) r h
        refine ⟨j, by omega, by omega, hfound, ?_⟩
        intro j' h1 h2
        rcases Nat.eq_or_lt_of_le h1 with rfl | h1'
        · exact ⟨f, hsrc, hw⟩
        · exact hbefore j' h1' h2
      · rw [if_neg hw] at h
        refine ⟨i, Nat.le_refl i, by omega,
          ⟨f, hsrc, by simpa using hw, (Option.some.inj h).symm⟩, ?_⟩
        intro j' h1 h2
        omega

/-- If every scanned day that the source supports is a working day, the scan
returns nothing. -/
theorem frdScan_none_of (src : PrimarySource) (today fromOrd : Nat) :
    ∀ (rem i : Nat),
      (∀ j, i ≤ j → j < i + rem → ∀ f, src (fromOrd + j) = some f →
        f.is_working_day = true) →
      frdScan src today fromOrd i rem = none := by
  intro rem
  induction rem with
  | zero => intro i _; rfl
  | succ n ih =>
    intro i hall
    rw [frdScan]
    cases hsrc : src (fromOrd + i) with
    | none => rfl
    | some f =>
      have hw : f.is_working_day = true :=
        hall i (Nat.le_refl i) (by omega) f hsrc
      dsimp only
      rw [if_pos hw]
      exact ih (i + 1) (fun j h1 h2 => hall j (by omega) (by omega))

/-- If the source is unsupported at scan index `k` and working at every
earlier scan index, the scan returns nothing (the unsupported day acts as a
stop signal, not an error). -/
theorem frdScan_stop (src : PrimarySource) (today fromOrd : Nat) :
    ∀ (rem i k : Nat), i ≤ k → k < i + rem → src (fromOrd + k) = none →
      (∀ j, i ≤ j → j < k →
        ∃ f, src (fromOrd + j) = some f ∧ f.is_working_day = true) →
      frdScan src today fromOrd i rem = none := by
  intro rem
  induction rem with
  | zero => intro i k _ _ _ _; rfl
  | succ n ih =>
    intro i k hik hk hnone hbefore
    rw [frdScan]
    rcases Nat.eq_or_lt_of_le hik with rfl | hik'
    · rw [hnone]
    · obtain ⟨f, hsrc, hw⟩ := hbefore i (Nat.le_refl i) hik'
      rw [hsrc]
      dsimp only
      rw [if_pos hw]
      exact ih (i + 1) k hik' (by omega) hnone
        (fun j h1 h2 => hbefore j (by omega) h2)

/-- C3: `find_next_rest_day` examines `from + 1` … `from + horizon` in
order; a returned result is the earliest non-working day in that range and
is strictly after `from`; if every supported day of the range is a working
day (in particular when no non-working day exists in the range), the
function returns `None` rather than an error. -/
theorem find_next_rest_day_correct (src : PrimarySource) (today fromOrd maxDays : Nat) :
    (∀ r : NextRest, findNextRestDay src today fromOrd maxDays = some r →
        fromOrd < r.dateOrd ∧ r.dateOrd ≤ fromOrd + maxDays ∧
        (∃ f, src r.dateOrd = some f ∧ f.is_working_day = false) ∧
        (∀ o, fromOrd < o → o < r.dateOrd →
          ∃ f, src o = some f ∧ f.is_working_day = true)) ∧
    ((∀ o, fromOrd < o → o ≤ fromOrd + maxDays → ∀ f, src o = some f →
        f.is_working_day = true) →
      findNextRestDay src today fromOrd maxDays = none) := by
  constructor
  · intro r h
    obtain ⟨j, hj1, hj2, ⟨f, hsrc, hw, hr⟩, hbefore⟩ :=
      frdScan_some_spec src today fromOrd maxDays 1 r h
    have hord : r.dateOrd = fromOrd + j := by rw [hr]
    refine ⟨by omega, by omega, ⟨f, by rw [hord]; exact hsrc, hw⟩, ?_⟩
    intro o h1 h2
    have := hbefore (o - fromOrd) (by omega) (by omega)
    have ho : fromOrd + (o - fromOrd) = o := by omega
    rwa [ho] at this
  · intro hall
    exact frdScan_none_of src today fromOrd maxDays 1
      (fun j h1 _ f hsrc => hall (fromOrd + j) (by omega) (by omega) f hsrc)

/-- Witness for C3 at a concrete source: scanning from ordinal 3 with the
source `srcW` returns ordinal 6, which is after 3, within the horizon,
non-working, and preceded only by working days. -/
theorem find_next_rest_day_correct_witness :
    (3 : Nat) < (6 : Nat) ∧ (6 : Nat) ≤ 3 + 30 ∧
    (∃ f, srcW 6 = some f ∧ f.is_working_day = false) ∧
    (∀ o, 3 < o → o < 6 → ∃ f, srcW o = some f ∧ f.is_working_day = true) :=
  (find_next_rest_day_correct srcW 10 3 30).1 ⟨6, "周六", "周末", -4⟩ (by decide)

/-- C4: `days_from_now` of a found rest day is its distance to the real
current date, not to the scan's start date. -/
theorem days_from_now_uses_today (src : PrimarySource) (today fromOrd maxDays : Nat)
    (r : NextRest) (h : findNextRestDay src today fromOrd maxDays = some r) :
    r.days_from_now = (r.dateOrd : Int) - (today : Int) := by
  obtain ⟨j, _, _, ⟨f, _, _, hr⟩, _⟩ :=
    frdScan_some_spec src today fromOrd maxDays 1 r h
  rw [hr]
  dsimp only
  push_cast
  ring

/-- Witness for C4: scanning from ordinal 3 while today is ordinal 10 gives
`days_from_now = 6 - 10 = -4`, which differs from the distance `6 - 3` to
the scan start. -/
theorem days_from_now_uses_today_witness :
    (⟨6, "周六", "周末", -4⟩ : NextRest).days_from_now =
      ((6 : Nat) : Int) - ((10 : Nat) : Int) ∧
    (⟨6, "周六", "周末", -4⟩ : NextRest).days_from_now ≠ (6 : Int) - (3 : Int) :=
  ⟨days_from_now_uses_today srcW 10 3 30 _ (by decide), by decide⟩

/-- C5: when the primary source raises its unsupported-year error at some
scanned date before any non-working day was found, the scan stops and
returns `None` instead of propagating the error. -/
theorem scan_stops_on_unsupported (src : PrimarySource) (today fromOrd maxDays k : Nat)
    (hk1 : 1 ≤ k) (hk2 : k ≤ maxDays) (hnone : src (fromOrd + k) = none)
    (hbefore : ∀ j, 1 ≤ j → j < k →
      ∃ f, src (fromOrd + j) = some f ∧ f.is_working_day = true) :
    findNextRestDay src today fromOrd maxDays = none :=
  frdScan_stop src today fromOrd maxDays 1 k hk1 (by omega) hnone hbefore

/-- Witness for C5: `srcGap` is unsupported at ordinal 5 and has non-working
days from ordinal 7 on; scanning from ordinal 3 still returns `None` — the
stop happens before the later rest days are reached. -/
theorem scan_stops_on_unsupported_witness :
    findNextRestDay srcGap 0 3 30 = none :=
  scan_stops_on_unsupported srcGap 0 3 30 2 (by decide) (by decide) (by decide)
    (fun j h1 h2 => by
      have hj : j = 1 := by omega
      subst hj
      exact ⟨⟨true, false, none⟩, rfl, rfl⟩)

/-! ## Resolver lemmas -/

/-- Unfolding of `getDateStatus` on a supported date. -/
theorem getDateStatus_eq (src : PrimarySource) (cache : SecondaryIndex)
    (today : Nat) (target : Ymd) (fact : HolidayFact)
    (hfact : src (toRD target) = some fact) :
    getDateStatus src cache today target =
      some { date := isoformat target
             weekday_name := weekdayName (toRD target)
             is_workday := fact.is_working_day
             detail := detailOf fact (weekdayOf (toRD target))
             next_rest_day := findNextRestDay src today (toRD target) 30
             warning := warningOf cache target fact
             holiday_name :=
               if fact.is_designated_holiday ∧ truthyStr fact.holiday_name
               then fact.holiday_name else none } := by
  rw [getDateStatus, hfact]

/-- C1: `detail_reason` follows the exact priority cascade of main.py lines
141-150, and in particular every working weekend day gets the make-up-work
label. The two hypotheses `hname` and `hexcl` record what the primary
source (`chinese_calendar`) guarantees about every fact it produces: a
reported holiday name is a non-empty string, and a designated holiday is
never a working day. -/
theorem detail_reason_priority (src : PrimarySource) (cache : SecondaryIndex)
    (today : Nat) (target : Ymd) (fact : HolidayFact) (v : Verdict)
    (hfact : src (toRD target) = some fact)
    (hv : getDateStatus src cache today target = some v)
    (hname : ∀ s, fact.holiday_name = some s → s ≠ "")
    (hexcl : fact.is_designated_holiday = true → fact.is_working_day = false) :
    (∀ s, fact.is_designated_holiday = true → fact.holiday_name = some s →
      v.detail = s) ∧
    (fact.is_designated_holiday = true → fact.holiday_name = none →
      v.detail = "法定节假日") ∧
    (fact.is_designated_holiday = false → fact.is_working_day = true →
      5 ≤ weekdayOf (toRD target) → v.detail = "调休补班") ∧
    (fact.is_designated_holiday = false → fact.is_working_day = false →
      weekdayOf (toRD target) < 5 → v.detail = "休息日") ∧
    (fact.is_designated_holiday = false → fact.is_working_day = true →
      weekdayOf (toRD target) < 5 → v.detail = "正常工作日") ∧
    (fact.is_designated_holiday = false → fact.is_working_day = false →
      5 ≤ weekdayOf (toRD target) → v.detail = "周末") ∧
    (fact.is_working_day = true → 5 ≤ weekdayOf (toRD target) →
      v.detail = "调休补班") := by
  rw [getDateStatus_eq src cache today target fact hfact] at hv
  have hveq : v = _ := (Option.some.inj hv).symm
  subst hveq
  dsimp only
  refine ⟨?_, ?_, ?_, ?_, ?_, ?_, ?_⟩
  · intro s h1 h2
    simp [detailOf, h1, h2, pyStrOr, hname s h2]
  · intro h1 h2
    simp [detailOf, h1, h2, pyStrOr]
  · intro h1 h2 h3
    simp [detailOf, h1, h2, h3]
  · intro h1 h2 h3
    simp [detailOf, h1, h2, h3, Nat.not_le.mpr h3]
  · intro h1 h2 h3
    simp [detailOf, h1, h2, Nat.not_le.mpr h3]
  · intro h1 h2 h3
    simp [detailOf, h1, h2, h3, Nat.not_lt.mpr h3]
  · intro h2 h3
    have h1 : fact.is_designated_holiday = false := by
      cases hh : fact.is_designated_holiday
      · rfl
      · rw [hexcl hh] at h2; cases h2
    simp [detailOf, h1, h2, h3]

/-- Witness for C1: on a designated holiday named 元旦, the verdict's
detail is that name. -/
theorem detail_reason_priority_witness :
    ∃ v, getDateStatus srcHoliday [] 0 ⟨2026, 1, 1⟩ = some v ∧ v.detail = "元旦" :=
  ⟨_, rfl,
    (detail_reason_priority srcHoliday [] 0 ⟨2026, 1, 1⟩ ⟨false, true, some "元旦"⟩ _
      rfl rfl
      (fun s hs => by injection hs with h; subst h; decide)
      (fun _ => rfl)).1 "元旦" rfl rfl⟩

/-- C2: the warning is the fixed disagreement message exactly when the
secondary index has a non-empty entry for the target's year and the
primary designated-holiday status differs from membership of the target's
ISO date string in that entry; otherwise (including an absent or empty
year entry) the warning is absent. -/
theorem warning_iff_disagreement (src : PrimarySource) (cache : SecondaryIndex)
    (today : Nat) (target : Ymd) (fact : HolidayFact) (v : Verdict)
    (hfact : src (toRD target) = some fact)
    (hv : getDateStatus src cache today target = some v) :
    (v.warning = some disagreeMsg ↔
      (dictLookup cache (toString target.y)).getD [] ≠ [] ∧
      fact.is_designated_holiday ≠
        ((dictLookup cache (toString target.y)).getD []).any
          (fun p => p.1 == isoformat target)) ∧
    (v.warning = none ↔
      ¬((dictLookup cache (toString target.y)).getD [] ≠ [] ∧
        fact.is_designated_holiday ≠
          ((dictLookup cache (toString target.y)).getD []).any
            (fun p => p.1 == isoformat target))) := by
  rw [getDateStatus_eq src cache today target fact hfact] at hv
  have hveq : v = _ := (Option.some.inj hv).symm
  subst hveq
  dsimp only
  by_cases hyc : (dictLookup cache (toString target.y)).getD [] = []
  · constructor
    · simp [warningOf, hyc, disagreeMsg]
    · simp [warningOf, hyc]
  · cases hhol : fact.is_designated_holiday <;>
      cases hmem : ((dictLookup cache (toString target.y)).getD []).any
        (fun p => p.1 == isoformat target) <;>
      constructor <;>
      simp [warningOf, hyc, hhol, hmem]

/-- Witness for C2: the primary source denies the holiday while the
secondary index lists the date for its year, so the warning appears. -/
theorem warning_iff_disagreement_witness :
    ∃ v, getDateStatus srcAllWork cacheNager 0 ⟨2026, 1, 1⟩ = some v ∧
      v.warning = some disagreeMsg :=
  ⟨_, rfl,
    ((warning_iff_disagreement srcAllWork cacheNager 0 ⟨2026, 1, 1⟩
        ⟨true, false, none⟩ _ rfl rfl).1).mpr (by decide)⟩

/-! ## Determinism of the resolver (C6) -/

/-- The scan only reads the primary source on the scanned window. -/
theorem frdScan_congr (src₁ src₂ : PrimarySource) (today fromOrd : Nat) :
    ∀ (rem i : Nat),
      (∀ j, i ≤ j → j < i + rem → src₁ (fromOrd + j) = src₂ (fromOrd + j)) →
      frdScan src₁ today fromOrd i rem = frdScan src₂ today fromOrd i rem := by
  intro rem
  induction rem with
  | zero => intro i _; rfl
  | succ n ih =>
    intro i hagree
    have h0 : src₁ (fromOrd + i) = src₂ (fromOrd + i) :=
      hagree i (Nat.le_refl i) (by omega)
    rw [frdScan, frdScan, ← h0]
    cases hsrc : src₁ (fromOrd + i) with
    | none => rfl
    | some f =>
      dsimp only
      by_cases hw : f.is_working_day = true
      · rw [if_pos hw, if_pos hw]
        exact ih (i + 1) (fun j h1 h2 => hagree j (by omega) (by omega))
      · rw [if_neg hw, if_neg hw]

/-- C6 (amended): the resolver is a pure function of the primary source's
facts on the target and its 30-day scan window, the secondary index's
entry for the target's year, the current date, and the target — two runs
agreeing on those produce identical verdicts. -/
theorem resolver_deterministic (src₁ src₂ : PrimarySource)
    (cache₁ cache₂ : SecondaryIndex) (today : Nat) (target : Ymd)
    (hsrc : ∀ o, toRD target ≤ o → o ≤ toRD target + 30 → src₁ o = src₂ o)
    (hcache : (dictLookup cache₁ (toString target.y)).getD [] =
      (dictLookup cache₂ (toString target.y)).getD []) :
    getDateStatus src₁ cache₁ today target = getDateStatus src₂ cache₂ today target := by
  have h0 : src₁ (toRD target) = src₂ (toRD target) :=
    hsrc (toRD target) (Nat.le_refl _) (by omega)
  have hnext : findNextRestDay src₁ today (toRD target) 30 =
      findNextRestDay src₂ today (toRD target) 30 :=
    frdScan_congr src₁ src₂ today (toRD target) 30 1
      (fun j h1 h2 => hsrc (toRD target + j) (by omega) (by omega))
  have hwarn : ∀ fact, warningOf cache₁ target fact = warningOf cache₂ target fact := by
    intro fact
    simp only [warningOf, hcache]
  rw [getDateStatus, getDateStatus, ← h0]
  cases hfact : src₁ (toRD target) with
  | none => rfl
  | some fact =>
    dsimp only
    rw [hnext, hwarn fact]

/-- Witness for C6 (amended): two sources agreeing on the scan window (but
not elsewhere) and two indexes agreeing on the target's year entry (but
not elsewhere) give the same verdict. -/
theorem resolver_deterministic_witness :
    getDateStatus srcDiffAtZero cacheOld 5 ⟨2026, 2, 25⟩ =
      getDateStatus srcAllWork [] 5 ⟨2026, 2, 25⟩ := by
  refine resolver_deterministic srcDiffAtZero srcAllWork cacheOld [] 5 ⟨2026, 2, 25⟩ ?_ (by decide)
  intro o h1 h2
  have ht : toRD ⟨2026, 2, 25⟩ = 739672 := by decide
  rw [ht] at h1
  have ho : o ≠ 0 := by omega
  simp [srcDiffAtZero, srcAllWork, ho]

/-- Counterexample for C6 as stated: with the primary source and the
secondary index fixed, running the resolver on two different current dates
gives different verdicts — `next_rest_day.days_from_now` is measured from
the real current date, which is therefore a hidden input. -/
theorem resolver_depends_on_clock :
    getDateStatus srcAllRest [] 100 ⟨2026, 2, 25⟩ ≠
      getDateStatus srcAllRest [] 101 ⟨2026, 2, 25⟩ := by
  decide

/-! ## Injectivity of the decimal year keys -/

/-- `digitVal` inverts `Nat.digitChar` on decimal digits. -/
theorem digitVal_digitChar (n : Nat) (h : n < 10) :
    digitVal (Nat.digitChar n) = n := by
  interval_cases n <;> rfl

/-- Unfolding of `digitChars` on a single digit. -/
theorem digitChars_lt (n : Nat) (h : n < 10) :
    digitChars n = [Nat.digitChar n] := by
  rw [digitChars]
  simp [h]

/-- Unfolding of `digitChars` on a multi-digit number. -/
theorem digitChars_ge (n : Nat) (h : ¬n < 10) :
    digitChars n = digitChars (n / 10) ++ [Nat.digitChar (n % 10)] := by
  conv_lhs => rw [digitChars]
  simp [h]

/-- A decimal rendering is never empty. -/
theorem digitChars_length_pos (n : Nat) : 0 < (digitChars n).length := by
  by_cases h : n < 10
  · rw [digitChars_lt n h]; simp
  · rw [digitChars_ge n h]; simp

/-- With enough fuel, core decimal rendering is `digitChars`. -/
theorem toDigitsCore_eq_digitChars :
    ∀ (f n : Nat) (l : List Char), n < 10 ^ (f + 1) →
      Nat.toDigitsCore 10 (f + 1) n l = digitChars n ++ l := by
  intro f
  induction f with
  | zero =>
    intro n l h
    have h10 : n < 10 := by simpa using h
    have h0 : n / 10 = 0 := Nat.div_eq_of_lt h10
    rw [digitChars_lt n h10]
    simp [Nat.toDigitsCore, h0, Nat.mod_eq_of_lt h10]
  | succ f ih =>
    intro n l h
    by_cases h10 : n < 10
    · have h0 : n / 10 = 0 := Nat.div_eq_of_lt h10
      rw [digitChars_lt n h10]
      simp [Nat.toDigitsCore, h0, Nat.mod_eq_of_lt h10]
    · have h0 : ¬n / 10 = 0 := by omega
      rw [Nat.toDigitsCore]
      simp only [h0, if_false]
      rw [ih (n / 10) _ (by
        have hpow : 10 ^ (f + 1 + 1) = 10 ^ (f + 1) * 10 := by ring
        rw [hpow] at h
        omega)]
      rw [digitChars_ge n h10]
      simp

/-- `digitChars` is injective. -/
theorem digitChars_injective :
    ∀ a b : Nat, digitChars a = digitChars b → a = b := by
  intro a
  induction a using Nat.strong_induction_on with
  | _ a ih =>
    intro b hlist
    by_cases ha10 : a < 10 <;> by_cases hb10 : b < 10
    · rw [digitChars_lt a ha10, digitChars_lt b hb10] at hlist
      have h1 : Nat.digitChar a = Nat.digitChar b := by
        injection hlist
      have := congrArg digitVal h1
      rwa [digitVal_digitChar a ha10, digitVal_digitChar b hb10] at this
    · rw [digitChars_lt a ha10, digitChars_ge b hb10] at hlist
      have hlen := congrArg List.length hlist
      simp only [List.length_singleton, List.length_append] at hlen
      have := digitChars_length_pos (b / 10)
      omega
    · rw [digitChars_ge a ha10, digitChars_lt b hb10] at hlist
      have hlen := congrArg List.length hlist
      simp only [List.length_singleton, List.length_append] at hlen
      have := digitChars_length_pos (a / 10)
      omega
    · rw [digitChars_ge a ha10, digitChars_ge b hb10] at hlist
      obtain ⟨h1, h2⟩ := List.append_inj' hlist rfl
      have hd : a / 10 = b / 10 :=
        ih (a / 10) (Nat.div_lt_self (by omega) (by omega)) (b / 10) h1
      have h2' : Nat.digitChar (a % 10) = Nat.digitChar (b % 10) := by
        injection h2
      have hm : a % 10 = b % 10 := by
        have := congrArg digitVal h2'
        rwa [digitVal_digitChar _ (by omega), digitVal_digitChar _ (by omega)] at this
      omega

/-- `toString` on natural numbers is injective: distinct years give
distinct cache keys. -/
theorem natToString_injective (a b : Nat) (h : toString a = toString b) : a = b := by
  have ha : a < 10 ^ (a + 1) :=
    Nat.lt_trans (Nat.lt_succ_self a) (Nat.lt_pow_self (by omega) (a + 1))
  have hb : b < 10 ^ (b + 1) :=
    Nat.lt_trans (Nat.lt_succ_self b) (Nat.lt_pow_self (by omega) (b + 1))
  have h' : Nat.repr a = Nat.repr b := h
  unfold Nat.repr Nat.toDigits at h'
  rw [toDigitsCore_eq_digitChars a a [] ha, toDigitsCore_eq_digitChars b b [] hb] at h'
  simp only [List.append_nil, List.asString] at h'
  have hlist : digitChars a = digitChars b := by
    injection h'
  exact digitChars_injective a b hlist

/-! ## Association-list lemmas for the cache refresh -/

/-- Appending a pair with a different key does not change a lookup. -/
theorem dictLookup_append_single_ne {α : Type} (l : List (String × α))
    (k k' : String) (v : α) (h : k' ≠ k) :
    dictLookup (l ++ [(k, v)]) k' = dictLookup l k' := by
  induction l with
  | nil =>
    simp only [List.nil_append, dictLookup, if_neg (Ne.symm h)]
  | cons p rest ih =>
    simp only [List.cons_append, dictLookup]
    by_cases hk : p.1 = k'
    · rw [if_pos hk, if_pos hk]
    · rw [if_neg hk, if_neg hk]
      exact ih

/-- Replacing the value at one key does not change a lookup at another. -/
theorem dictLookup_mapReplace_ne {α : Type} (l : List (String × α))
    (k k' : String) (v : α) (h : k' ≠ k) :
    dictLookup (l.map (fun p => if p.1 = k then (k, v) else p)) k' =
      dictLookup l k' := by
  induction l with
  | nil => rfl
  | cons p rest ih =>
    simp only [List.map_cons, dictLookup]
    by_cases hp : p.1 = k
    · rw [if_pos hp]
      dsimp only
      rw [if_neg (Ne.symm h), if_neg (by rw [hp]; exact Ne.symm h)]
      exact ih
    · rw [if_neg hp]
      by_cases hk : p.1 = k'
      · rw [if_pos hk, if_pos hk]
      · rw [if_neg hk, if_neg hk]
        exact ih

/-- `dictSet` does not change the value looked up at a different key. -/
theorem dictLookup_dictSet_ne {α : Type} (l : List (String × α)) (k k' : String)
    (v : α) (h : k' ≠ k) : dictLookup (dictSet l k v) k' = dictLookup l k' := by
  unfold dictSet
  by_cases hc : l.any (fun p => p.1 == k)
  · rw [if_pos hc]
    exact dictLookup_mapReplace_ne l k k' v h
  · rw [if_neg hc]
    exact dictLookup_append_single_ne l k k' v h

/-! ## Secondary cache store (C7, C8) -/

/-- C7: `load_cache` never fails — an absent file, an unreadable file and
invalid JSON all yield the empty index, and successfully parsed content is
returned as-is. -/
theorem load_cache_never_fails (loads : String → Option Json) (st : Storage) :
    (st = .absent → loadCache loads st = .obj []) ∧
    (st = .unreadable → loadCache loads st = .obj []) ∧
    (∀ s, st = .content s → loads s = none → loadCache loads st = .obj []) ∧
    (∀ s j, st = .content s → loads s = some j → loadCache loads st = j) := by
  refine ⟨?_, ?_, ?_, ?_⟩
  · intro h; subst h; rfl
  · intro h; subst h; rfl
  · intro s h hl; subst h; simp [loadCache, hl]
  · intro s j h hl; subst h; simp [loadCache, hl]

/-- Witness for C7: a file whose content is not valid JSON loads as the
empty index. -/
theorem load_cache_never_fails_witness :
    loadCache (fun _ => none) (.content "[") = .obj [] :=
  (load_cache_never_fails (fun _ => none) (.content "[")).2.2.1 "[" rfl rfl

/-- C8: saving a freshly loaded index and loading again reproduces it,
for any persisted state on which the JSON codec round-trips (the
documented behaviour of Python's `json` module). -/
theorem save_load_roundtrip (loads : String → Option Json) (dumps : Json → String)
    (st : Storage)
    (hcodec : loads (dumps (loadCache loads st)) = some (loadCache loads st)) :
    loadCache loads (saveCache dumps (loadCache loads st)) = loadCache loads st := by
  generalize hj : loadCache loads st = j at hcodec ⊢
  simp only [saveCache, loadCache, hcodec]

/-- Witness for C8 with the concrete codec `loadsW` / `dumpsW` and an
absent file. -/
theorem save_load_roundtrip_witness :
    loadCache loadsW (saveCache dumpsW (loadCache loadsW .absent)) =
      loadCache loadsW .absent :=
  save_load_roundtrip loadsW dumpsW .absent rfl

/-! ## Cache refresh frame property (C10) -/

/-- C10: one refresh run persists exactly `updatedIndex`: every year key
other than `str(cur)` and `str(cur + 1)` keeps its entry, and a year whose
fetch came back empty keeps its previous entry too. -/
theorem cache_refresh_frame (loads : String → Option Json) (dumps : Json → String)
    (fetch : Nat → List (String × String)) (cur : Nat) (st : Storage)
    (idx : List (String × Json))
    (hidx : loadCache loads st = .obj idx)
    (hcodec : loads (dumps (.obj (updatedIndex fetch cur idx))) =
      some (.obj (updatedIndex fetch cur idx))) :
    updateAuxiliaryCache loads dumps fetch cur st =
      some (saveCache dumps (.obj (updatedIndex fetch cur idx))) ∧
    loadCache loads (saveCache dumps (.obj (updatedIndex fetch cur idx))) =
      .obj (updatedIndex fetch cur idx) ∧
    (∀ key, key ≠ toString cur → key ≠ toString (cur + 1) →
      dictLookup (updatedIndex fetch cur idx) key = dictLookup idx key) ∧
    (fetch cur = [] →
      dictLookup (updatedIndex fetch cur idx) (toString cur) =
        dictLookup idx (toString cur)) ∧
    (fetch (cur + 1) = [] →
      dictLookup (updatedIndex fetch cur idx) (toString (cur + 1)) =
        dictLookup idx (toString (cur + 1))) := by
  have hkey : toString cur ≠ toString (cur + 1) := by
    intro h
    have := natToString_injective cur (cur + 1) h
    omega
  refine ⟨?_, ?_, ?_, ?_, ?_⟩
  · unfold updateAuxiliaryCache updatedIndex updateStep
    rw [hidx]
    by_cases hc1 : (fetch cur).isEmpty <;> by_cases hc2 : (fetch (cur + 1)).isEmpty <;>
      simp [hc1, hc2, saveCache]
  · generalize hu : updatedIndex fetch cur idx = u at hcodec ⊢
    simp only [saveCache, loadCache, hcodec]
  · intro key hk1 hk2
    unfold updatedIndex
    by_cases hc1 : (fetch cur).isEmpty
    · by_cases hc2 : (fetch (cur + 1)).isEmpty
      · simp [hc1, hc2]
      · simp only [hc1, hc2, if_true, if_false, Bool.false_eq_true]
        exact dictLookup_dictSet_ne _ _ _ _ hk2
    · by_cases hc2 : (fetch (cur + 1)).isEmpty
      · simp only [hc1, hc2, if_true, if_false, Bool.false_eq_true]
        exact dictLookup_dictSet_ne _ _ _ _ hk1
      · simp only [hc1, hc2, if_false, Bool.false_eq_true]
        rw [dictLookup_dictSet_ne _ _ _ _ hk2]
        exact dictLookup_dictSet_ne _ _ _ _ hk1
  · intro hf
    unfold updatedIndex
    have hc1 : (fetch cur).isEmpty = true := by simp [hf]
    by_cases hc2 : (fetch (cur + 1)).isEmpty
    · simp [hc1, hc2]
    · simp only [hc1, hc2, if_true, if_false, Bool.false_eq_true]
      exact dictLookup_dictSet_ne _ _ _ _ hkey
  · intro hf
    unfold updatedIndex
    have hc2 : (fetch (cur + 1)).isEmpty = true := by simp [hf]
    by_cases hc1 : (fetch cur).isEmpty
    · simp [hc1, hc2]
    · simp only [hc1, hc2, if_true, if_false, Bool.false_eq_true]
      exact dictLookup_dictSet_ne _ _ _ _ (Ne.symm hkey)

/-- Witness for C10: with prior index `idxW` (year 2020 only), a fetch
succeeding for 2025 and failing for 2026, the refresh keeps the 2020 entry
and the (absent) 2026 entry unchanged. -/
theorem cache_refresh_frame_witness :
    dictLookup updW "2020" = dictLookup idxW "2020" ∧
    dictLookup updW "2026" = dictLookup idxW "2026" := by
  have h := cache_refresh_frame loadsR dumpsR fetchW 2025 (.content "A") idxW rfl rfl
  exact ⟨h.2.2.1 "2020" (by decide) (by decide), h.2.2.2.2 (by decide)⟩

/-! ## Date-text parsing (C9) -/

end ChinaWorkday
